import Mathlib

/-!
Verification of the toxicflow sandwich-attack detector.

This file gives a shallow embedding of the detector's core: the swap-record
data model, the token-equivalence resolver, the block grouper, the two
heuristic pattern matchers and confidence scorers, and the constant-product
pool simulator with its reality-check and counterfactual stages.  Floating
point amounts (`f64`/`f32` in the source) are modelled as exact rationals;
the Rust `HashMap` groupings are modelled as association lists keyed by the
distinct block numbers, each bucket holding the transactions of that block
in input order (per-key `entry`/`push` accumulation yields exactly the
filtered sublist).  Every stateful loop is modelled as a fold, mirroring the
source's sequential pool updates.  The stable `sort_by_key` is modelled by
the stable `List.insertionSort`.
-/

namespace ToxicFlow

/-- Swap record, from `src/sandwich/transactions.rs` (the richest of the
three identical layouts; the strict detector simply ignores the USD
fields). -/
structure SwapTransaction where
  tx_hash : String
  block_number : Nat
  timestamp : Nat
  tx_position_in_block : Nat
  from_address : String
  token_in : String
  token_out : String
  amount_in : ℚ
  amount_out : ℚ
  gas_price : Nat
  pool_address : String
  token_launch_block : Nat
  is_contract_caller : Bool
  usd_value_in : ℚ
  usd_value_out : ℚ
  gas_cost_usd : ℚ
  deriving DecidableEq, Repr, Inhabited

/-- Token equivalence groups, from `src/sandwich/tokens.rs`
(`get_token_equivalence_group`). -/
def get_token_equivalence_group (token : String) : String :=
  if token == "USDC" || token == "USDT" || token == "DAI" || token == "FRAX"
      || token == "BUSD" then "STABLECOINS"
  else if token == "ETH" || token == "WETH" || token == "stETH" then "ETH_GROUP"
  else if token == "WBTC" || token == "renBTC" || token == "sBTC" then "BTC_GROUP"
  else token

/-- Economic equivalence of two tokens, from `src/sandwich/tokens.rs`. -/
def are_tokens_equivalent (token_a token_b : String) : Bool :=
  get_token_equivalence_group token_a == get_token_equivalence_group token_b

/-- Round-trip token check, from `src/sandwich/tokens.rs`
(`are_tokens_reversed`). -/
def are_tokens_reversed (a b : SwapTransaction) : Bool :=
  are_tokens_equivalent a.token_in b.token_out
    && are_tokens_equivalent a.token_out b.token_in

/-- Ordering of transactions by intra-block position, the key of the
source's `sort_by_key(|tx| tx.tx_position_in_block)`. -/
def posLe (a b : SwapTransaction) : Prop :=
  a.tx_position_in_block ≤ b.tx_position_in_block

instance : DecidableRel posLe := fun a b =>
  Nat.decLe a.tx_position_in_block b.tx_position_in_block

instance : IsTotal SwapTransaction posLe :=
  ⟨fun a b => Nat.le_total a.tx_position_in_block b.tx_position_in_block⟩

instance : IsTrans SwapTransaction posLe :=
  ⟨fun _ _ _ hab hbc => Nat.le_trans hab hbc⟩

/-- Distinct block numbers appearing in the input, the key set of the
grouping `HashMap`. -/
def block_numbers (transactions : List SwapTransaction) : List Nat :=
  (transactions.map (fun tx => tx.block_number)).dedup

/-- AMM pool state, from `src/sandwich/same_block_sim.rs` (`Pool`). -/
structure Pool where
  token_a_reserve : ℚ
  token_b_reserve : ℚ
  token_a_address : String
  token_b_address : String
  deriving DecidableEq, Repr

/-- Result of simulating one swap, from `src/sandwich/same_block_sim.rs`
(`SwapSimulationResult`). -/
structure SwapSimulationResult where
  tokens_received : ℚ
  price_per_token : ℚ
  slippage : ℚ
  new_pool_state : Pool
  deriving DecidableEq, Repr

/-- Simulation-path finding, from `src/sandwich/same_block_sim.rs`
(`SandwichAttackBySimulation`). -/
structure SandwichAttackBySimulation where
  front_run_tx : SwapTransaction
  victim_tx : SwapTransaction
  back_run_tx : SwapTransaction
  victim_loss_percentage : ℚ
  deriving DecidableEq, Repr, Inhabited

/-- Marginal price of token A, from `Pool::get_token_a_price`. -/
def Pool.get_token_a_price (p : Pool) : ℚ :=
  p.token_b_reserve / p.token_a_reserve

/-- Marginal price of token B, from `Pool::get_token_b_price`. -/
def Pool.get_token_b_price (p : Pool) : ℚ :=
  p.token_a_reserve / p.token_b_reserve

/-- Constant-product output amount, from `Pool::constant_product_formula`. -/
def Pool.constant_product_formula (_p : Pool) (x y dx : ℚ) : ℚ :=
  (y * dx) / (x + dx)

/-- Slippage in percent, from `Pool::calculate_slippage`. -/
def Pool.calculate_slippage (_p : Pool) (initial_price execution_price : ℚ) : ℚ :=
  |(execution_price - initial_price) / initial_price * 100|

/-- One swap against the pool, from `Pool::simulate_swap`. -/
def Pool.simulate_swap (p : Pool) (swap : SwapTransaction) : SwapSimulationResult :=
  let is_buying_token_a := swap.token_out == p.token_a_address
  let initial_price :=
    if is_buying_token_a then p.get_token_a_price else p.get_token_b_price
  let pair :=
    if is_buying_token_a then (p.token_a_reserve, p.token_b_reserve)
    else (p.token_b_reserve, p.token_a_reserve)
  let output_reserve := pair.1
  let input_reserve := pair.2
  let tokens_received :=
    p.constant_product_formula input_reserve output_reserve swap.amount_in
  let execution_price := swap.amount_in / tokens_received
  let slippage := p.calculate_slippage initial_price execution_price
  let new_reserves :=
    if is_buying_token_a then
      (p.token_a_reserve - tokens_received, p.token_b_reserve + swap.amount_in)
    else
      (p.token_a_reserve + swap.amount_in, p.token_b_reserve - tokens_received)
  { tokens_received := tokens_received
    price_per_token := execution_price
    slippage := slippage
    new_pool_state :=
      { token_a_reserve := new_reserves.1
        token_b_reserve := new_reserves.2
        token_a_address := p.token_a_address
        token_b_address := p.token_b_address } }

/-- Sequential replay of a list of swaps, the `for tx in ... { current_pool =
simulation.new_pool_state }` loops of `src/sandwich/same_block_sim.rs`,
modelled as a fold over the ordered transactions. -/
def replay_swaps (initial : Pool) (txs : List SwapTransaction) : Pool :=
  txs.foldl (fun pool tx => (pool.simulate_swap tx).new_pool_state) initial

/-- Reality check, from `check_simulation_is_like_reality` in
`src/sandwich/same_block_sim.rs`. -/
def check_simulation_is_like_reality (initial_pool : Pool)
    (pool_transactions : List SwapTransaction) (victim : SwapTransaction) : Bool :=
  let before_victim_transactions := pool_transactions.filter
    (fun tx => decide (tx.tx_position_in_block < victim.tx_position_in_block))
  let current_pool := replay_swaps initial_pool before_victim_transactions
  let victim_simulation := current_pool.simulate_swap victim
  let actual_amount_out := victim.amount_out
  let simulated_amount_out := victim_simulation.tokens_received
  let difference_percentage :=
    |(actual_amount_out - simulated_amount_out) / actual_amount_out * 100|
  decide (difference_percentage < 1)

/-- Counterfactual replay without the front-run, from
`simulate_without_attacker` in `src/sandwich/same_block_sim.rs`. -/
def simulate_without_attacker (initial_pool : Pool)
    (pool_transactions : List SwapTransaction)
    (front victim : SwapTransaction) : ℚ :=
  let no_attacker_before_victim_txns :=
    (pool_transactions.filter
      (fun tx => decide (tx.tx_position_in_block < victim.tx_position_in_block))).filter
      (fun tx => tx.tx_position_in_block != front.tx_position_in_block)
  let current_pool := replay_swaps initial_pool no_attacker_before_victim_txns
  let victim_simulation := current_pool.simulate_swap victim
  let actual_amount_out := victim.amount_out
  let simulated_amount_out := victim_simulation.tokens_received
  |(actual_amount_out - simulated_amount_out) / actual_amount_out * 100|

/-- Per-candidate simulation, from `simulate_sandwich_attack` in
`src/sandwich/same_block_sim.rs`. -/
def simulate_sandwich_attack (initial_pool : Pool)
    (front victim back : SwapTransaction)
    (all_transactions : List SwapTransaction) :
    Except String SandwichAttackBySimulation :=
  let pool_transactions := all_transactions.filter
    (fun tx => tx.pool_address == victim.pool_address)
  if pool_transactions.isEmpty then
    Except.error "No transactions found in the victim pool."
  else if ! check_simulation_is_like_reality initial_pool pool_transactions victim then
    Except.error "Initial simulation is not like reality."
  else
    Except.ok
      { front_run_tx := front
        victim_tx := victim
        back_run_tx := back
        victim_loss_percentage :=
          simulate_without_attacker initial_pool pool_transactions front victim }

namespace Utils

/-- Equivalence-aware pattern used by the simulation detector, from
`src/sandwich/utils.rs` (`is_sandwich_pattern`): front and victim must
share a pool, the back leg may execute elsewhere. -/
def is_sandwich_pattern (front victim back : SwapTransaction) : Bool :=
  if front.pool_address != victim.pool_address then false
  else if front.from_address != back.from_address then false
  else if front.from_address == victim.from_address then false
  else if ! are_tokens_equivalent front.token_in back.token_out then false
  else if ! are_tokens_equivalent front.token_in victim.token_in
      || ! are_tokens_equivalent front.token_out victim.token_out then false
  else if are_tokens_equivalent victim.token_in back.token_in
      && are_tokens_equivalent victim.token_out back.token_out then false
  else true

end Utils

namespace Detector

/-- Heuristic finding of the strict variant, from
`src/sandwich_detector.rs` (`SandwichAttack`). -/
structure SandwichAttack where
  front_run_tx : SwapTransaction
  victim_tx : SwapTransaction
  back_run_tx : SwapTransaction
  confidence_score : ℚ
  deriving DecidableEq, Repr, Inhabited

/-- Strict (non-equivalence) pattern, from `src/sandwich_detector.rs`
(`is_sandwich_pattern`): literal token match and a three-way pool match. -/
def is_sandwich_pattern (front victim back : SwapTransaction) : Bool :=
  if front.from_address != back.from_address then false
  else if front.from_address == victim.from_address then false
  else if front.pool_address != victim.pool_address
      || victim.pool_address != back.pool_address then false
  else if front.token_in != back.token_out then false
  else if front.token_in != victim.token_in
      || front.token_out != victim.token_out then false
  else if victim.token_in == back.token_in
      && victim.token_out == back.token_out then false
  else true

/-- Basic-variant confidence score, from `src/sandwich_detector.rs`
(`calculate_sandwich_confidence`).  The source's sequence of conditional
`confidence += w` updates on a mutable accumulator is written as the sum of
the conditional increments, followed by the same final clamp. -/
def calculate_sandwich_confidence (front victim back : SwapTransaction) : ℚ :=
  let confidence : ℚ := 0.5
    + (if front.gas_price > victim.gas_price then 0.2 else 0)
    + (if back.gas_price < victim.gas_price then 0.1 else 0)
    + (if front.is_contract_caller then 0.1 else 0)
    + (if back.is_contract_caller then 0.1 else 0)
    + (if back.amount_out > front.amount_in then 0.25 else 0)
  if confidence > 1 then 1 else confidence

/-- Consecutive-window search of the strict variant, from
`src/sandwich_detector.rs` (`find_sandwiches_in_block`): windows
`(i, i+1, i+2)` only. -/
def find_sandwiches_in_block (transactions : List SwapTransaction) :
    Except String (List SandwichAttack) :=
  if transactions.length < 3 then
    Except.error "not enough transactions to have a sandwich"
  else
    Except.ok ((List.range (transactions.length - 2)).filterMap fun i =>
      match transactions[i]?, transactions[i+1]?, transactions[i+2]? with
      | some front, some victim, some back =>
        if is_sandwich_pattern front victim back then
          some { front_run_tx := front
                 victim_tx := victim
                 back_run_tx := back
                 confidence_score := calculate_sandwich_confidence front victim back }
        else none
      | _, _, _ => none)

/-- Block grouping of the strict variant, from `src/sandwich_detector.rs`
(`group_transactions_by_block`): bucket per block number, each bucket
stably sorted by intra-block position. -/
def group_transactions_by_block (transactions : List SwapTransaction) :
    List (Nat × List SwapTransaction) :=
  (block_numbers transactions).map fun b =>
    (b, List.insertionSort posLe
          (transactions.filter (fun tx => tx.block_number == b)))

/-- Strict-variant entry point, from `src/sandwich_detector.rs`
(`find_sandwiches`): failed blocks only print and contribute nothing. -/
def find_sandwiches (transactions : List SwapTransaction) : List SandwichAttack :=
  (group_transactions_by_block transactions).flatMap fun e =>
    match find_sandwiches_in_block e.2 with
    | Except.ok block_attacks => block_attacks
    | Except.error _ => []

end Detector

namespace SameBlock

/-- Signal flags of the richer scorer, from `src/sandwich/same_block.rs`
(`ConfidenceFlags`). -/
structure ConfidenceFlags where
  higher_front_gas_price : Bool
  lower_back_gas_price : Bool
  front_is_contract : Bool
  back_is_contract : Bool
  is_profitable : Bool
  is_proportional : Bool
  price_impact_score : ℚ
  total_profit_usd : ℚ
  deriving DecidableEq, Repr, Inhabited

/-- Heuristic finding of the equivalence-aware variant, from
`src/sandwich/same_block.rs` (`SandwichAttack`). -/
structure SandwichAttack where
  front_run_tx : SwapTransaction
  victim_tx : SwapTransaction
  back_run_tx : SwapTransaction
  confidence_score : ℚ
  confidence_flags : ConfidenceFlags
  deriving DecidableEq, Repr, Inhabited

/-- Equivalence-aware pattern of the heuristic detector, from
`src/sandwich/same_block.rs` (`is_sandwich_pattern`): no pool-address
check at all. -/
def is_sandwich_pattern (front victim back : SwapTransaction) : Bool :=
  if front.from_address != back.from_address then false
  else if front.from_address == victim.from_address then false
  else if ! are_tokens_equivalent front.token_in back.token_out then false
  else if ! are_tokens_equivalent front.token_in victim.token_in
      || ! are_tokens_equivalent front.token_out victim.token_out then false
  else if are_tokens_equivalent victim.token_in back.token_in
      && are_tokens_equivalent victim.token_out back.token_out then false
  else true

/-- Proportional-sizing predicate, from `src/sandwich/same_block.rs`
(`is_proportional_sandwich`). -/
def is_proportional_sandwich (front victim back : SwapTransaction) : Bool :=
  let front_ratio := front.usd_value_in / victim.usd_value_in
  let back_ratio := back.usd_value_in / victim.usd_value_in
  let front_proportional := decide (front_ratio ≥ 0.05) && decide (front_ratio ≤ 0.5)
  let back_proportional :=
    decide (back_ratio ≥ front_ratio * 0.5) && decide (back_ratio ≤ front_ratio * 2)
  front_proportional && back_proportional

/-- Victim price-impact score, from `src/sandwich/same_block.rs`
(`calculate_victim_price_impact`). -/
def calculate_victim_price_impact (front victim : SwapTransaction) : ℚ :=
  if ! are_tokens_equivalent front.token_in victim.token_in
      || ! are_tokens_equivalent front.token_out victim.token_out then 0
  else
    let front_rate := front.usd_value_out / front.usd_value_in
    let victim_rate := victim.usd_value_out / victim.usd_value_in
    if victim_rate < front_rate then (front_rate - victim_rate) / front_rate else 0

/-- Net USD profit of the attacker, the `total_profit_usd` expression of
`calculate_sandwich_confidence` in `src/sandwich/same_block.rs`. -/
def total_profit_usd (front back : SwapTransaction) : ℚ :=
  back.usd_value_out - front.usd_value_in - front.gas_cost_usd - back.gas_cost_usd

/-- Unclamped confidence of the richer scorer: the sum of the conditional
`confidence += w` increments of `calculate_sandwich_confidence` in
`src/sandwich/same_block.rs`, starting from the base 0.5. -/
def raw_confidence (front victim back : SwapTransaction) : ℚ :=
  0.5
    + (if front.gas_price > victim.gas_price then 0.2 else 0)
    + (if back.gas_price < victim.gas_price then 0.1 else 0)
    + (if front.is_contract_caller then 0.1 else 0)
    + (if back.is_contract_caller then 0.1 else 0)
    + (if total_profit_usd front back > 0 then 0.25 else 0)
    + (if is_proportional_sandwich front victim back then 0.15 else 0)
    + (if calculate_victim_price_impact front victim > 0 then
        (if calculate_victim_price_impact front victim < 0.25 then
          calculate_victim_price_impact front victim
        else 0.25)
      else 0)

/-- Richer-variant confidence score and flags, from
`src/sandwich/same_block.rs` (`calculate_sandwich_confidence`): the
accumulated sum `raw_confidence`, clamped to 1.0 from above, paired with
the signal flags. -/
def calculate_sandwich_confidence (front victim back : SwapTransaction) :
    ℚ × ConfidenceFlags :=
  let confidence := raw_confidence front victim back
  let final_confidence := if confidence > 1 then 1 else confidence
  (final_confidence,
    { higher_front_gas_price := decide (front.gas_price > victim.gas_price)
      lower_back_gas_price := decide (back.gas_price < victim.gas_price)
      front_is_contract := front.is_contract_caller
      back_is_contract := back.is_contract_caller
      is_profitable := decide (total_profit_usd front back > 0)
      is_proportional := is_proportional_sandwich front victim back
      price_impact_score := calculate_victim_price_impact front victim
      total_profit_usd := total_profit_usd front back })

/-- Non-consecutive triple search of the heuristic detector, from
`src/sandwich/same_block.rs` (`find_sandwiches_in_block`): front/back pairs
with at least one transaction between them, every intermediate index as
victim, with the `continue` guards on attacker address and token reversal. -/
def find_sandwiches_in_block (transactions : List SwapTransaction) :
    Except String (List SandwichAttack) :=
  if transactions.length < 3 then
    Except.error "not enough transactions to have a sandwich"
  else
    Except.ok ((List.range (transactions.length - 2)).flatMap fun front_pos =>
      match transactions[front_pos]? with
      | none => []
      | some front_tx =>
        (List.range' (front_pos + 2)
            (transactions.length - (front_pos + 2))).flatMap fun back_pos =>
          match transactions[back_pos]? with
          | none => []
          | some back_tx =>
            if front_tx.from_address != back_tx.from_address then []
            else if ! are_tokens_reversed front_tx back_tx then []
            else
              (List.range' (front_pos + 1)
                  (back_pos - (front_pos + 1))).filterMap fun victim_pos =>
                match transactions[victim_pos]? with
                | none => none
                | some victim_tx =>
                  if is_sandwich_pattern front_tx victim_tx back_tx then
                    some { front_run_tx := front_tx
                           victim_tx := victim_tx
                           back_run_tx := back_tx
                           confidence_score :=
                             (calculate_sandwich_confidence front_tx victim_tx back_tx).1
                           confidence_flags :=
                             (calculate_sandwich_confidence front_tx victim_tx back_tx).2 }
                  else none)

/-- Block grouping of the heuristic detector, from
`src/sandwich/same_block.rs` (`group_transactions_by_block`). -/
def group_transactions_by_block (transactions : List SwapTransaction) :
    List (Nat × List SwapTransaction) :=
  (block_numbers transactions).map fun b =>
    (b, List.insertionSort posLe
          (transactions.filter (fun tx => tx.block_number == b)))

/-- Heuristic entry point, from `src/sandwich/same_block.rs`
(`find_same_block_sandwiches`): failed blocks only print and contribute
nothing. -/
def find_same_block_sandwiches (transactions : List SwapTransaction) :
    List SandwichAttack :=
  (group_transactions_by_block transactions).flatMap fun e =>
    match find_sandwiches_in_block e.2 with
    | Except.ok block_attacks => block_attacks
    | Except.error _ => []

end SameBlock

namespace SameBlockSim

/-- Block grouping of the simulation detector, from
`find_sandwich_attacks_by_simulation` in `src/sandwich/same_block_sim.rs`:
bucket per block number, in input order, with no position sort. -/
def group_by_block (transactions : List SwapTransaction) :
    List (Nat × List SwapTransaction) :=
  (block_numbers transactions).map fun b =>
    (b, transactions.filter (fun tx => tx.block_number == b))

/-- Triple search of the simulation detector, from
`find_sandwiches_in_block_by_simulation` in
`src/sandwich/same_block_sim.rs`: all index triples `i < j < k`, the
`utils.rs` pattern, pool lookup, and the per-candidate simulation whose
errors are only printed. -/
def find_sandwiches_in_block_by_simulation (pool_map : String → Option Pool)
    (transactions : List SwapTransaction) : List SandwichAttackBySimulation :=
  (List.range transactions.length).flatMap fun i =>
    (List.range' (i + 1) (transactions.length - (i + 1))).flatMap fun j =>
      (List.range' (j + 1) (transactions.length - (j + 1))).flatMap fun k =>
        match transactions[i]?, transactions[j]?, transactions[k]? with
        | some front, some victim, some back =>
          if Utils.is_sandwich_pattern front victim back then
            match pool_map front.pool_address with
            | some pool =>
              match simulate_sandwich_attack pool front victim back transactions with
              | Except.ok attack => [attack]
              | Except.error _ => []
            | none => []
          else []
        | _, _, _ => []

/-- Simulation-path entry point, from `find_sandwich_attacks_by_simulation`
in `src/sandwich/same_block_sim.rs`. -/
def find_sandwich_attacks_by_simulation (pool_map : String → Option Pool)
    (transactions : List SwapTransaction) : List SandwichAttackBySimulation :=
  (group_by_block transactions).flatMap fun e =>
    find_sandwiches_in_block_by_simulation pool_map e.2

end SameBlockSim

/-! Concrete example data used to instantiate and to refute the claims. -/

/-- Base transaction for the examples below. -/
def tx0 : SwapTransaction where
  tx_hash := "0x0"
  block_number := 5
  timestamp := 0
  tx_position_in_block := 0
  from_address := "0xa"
  token_in := "USDC"
  token_out := "ETH"
  amount_in := 10
  amount_out := 1
  gas_price := 50
  pool_address := "p1"
  token_launch_block := 0
  is_contract_caller := false
  usd_value_in := 600
  usd_value_out := 600
  gas_cost_usd := 1

/-- Front leg of a cross-pool heuristic sandwich with no additive scoring
signals (equal gas prices, no contracts, unprofitable, disproportionate
sizing, zero price impact). -/
def t61 : SwapTransaction := { tx0 with tx_hash := "0x61", from_address := "X" }

/-- Victim leg on a different pool than the front leg. -/
def t62 : SwapTransaction :=
  { tx0 with tx_hash := "0x62", tx_position_in_block := 1, from_address := "Y",
             pool_address := "p2", usd_value_in := 1000, usd_value_out := 1000 }

/-- Back leg on a third pool. -/
def t63 : SwapTransaction :=
  { tx0 with tx_hash := "0x63", tx_position_in_block := 2, from_address := "X",
             token_in := "ETH", token_out := "USDC", pool_address := "p3",
             usd_value_in := 100, usd_value_out := 0 }

/-- One block whose only sandwich triple spans three distinct pools. -/
def ex6 : List SwapTransaction := [t61, t62, t63]

/-- Front leg of a same-pool strict-variant sandwich. -/
def t6d1 : SwapTransaction :=
  { tx0 with tx_hash := "0xd1", block_number := 3, from_address := "X",
             token_out := "SHIB", pool_address := "q" }

/-- Victim leg of the strict-variant sandwich. -/
def t6d2 : SwapTransaction :=
  { tx0 with tx_hash := "0xd2", block_number := 3, tx_position_in_block := 1,
             from_address := "Y", token_out := "SHIB", pool_address := "q" }

/-- Back leg of the strict-variant sandwich. -/
def t6d3 : SwapTransaction :=
  { tx0 with tx_hash := "0xd3", block_number := 3, tx_position_in_block := 2,
             from_address := "X", token_in := "SHIB", token_out := "USDC",
             pool_address := "q", amount_out := 0 }

/-- One block matched by the strict (consecutive-window) detector. -/
def ex6d : List SwapTransaction := [t6d1, t6d2, t6d3]

/-- Pool on which replaying nothing and then the victim's swap reproduces
exactly 99 output tokens against a recorded 100: a 1.00% relative
difference. -/
def p2 : Pool :=
  { token_a_reserve := 198, token_b_reserve := 1,
    token_a_address := "A", token_b_address := "B" }

/-- Victim whose recorded output differs from its simulated output by
exactly one percent. -/
def v2 : SwapTransaction :=
  { tx0 with tx_hash := "0xv2", block_number := 1, token_in := "B",
             token_out := "A", amount_in := 1, amount_out := 100,
             pool_address := "P" }

/-- Pool on which the victim's swap reproduces its recorded output
exactly. -/
def p3 : Pool :=
  { token_a_reserve := 200, token_b_reserve := 1,
    token_a_address := "A", token_b_address := "B" }

/-- Victim whose recorded output matches its simulated output exactly. -/
def v3 : SwapTransaction :=
  { tx0 with tx_hash := "0xv3", block_number := 1, token_in := "B",
             token_out := "A", amount_in := 1, amount_out := 100,
             pool_address := "P" }

/-- The simulation finding produced for `v3` alone on `p3`. -/
def a3 : SandwichAttackBySimulation :=
  { front_run_tx := v3, victim_tx := v3, back_run_tx := v3,
    victim_loss_percentage := 0 }

/-- Front leg of a heavily signalled sandwich (high gas, contract caller,
proportional sizing): enough additive terms to hit the 1.0 clamp without
the profitability bonus. -/
def f5 : SwapTransaction :=
  { tx0 with tx_hash := "0xf5", from_address := "X", token_out := "SHIB",
             gas_price := 100, is_contract_caller := true,
             usd_value_in := 100, usd_value_out := 100 }

/-- Victim leg of the heavily signalled sandwich. -/
def v5 : SwapTransaction :=
  { tx0 with tx_hash := "0xv5", tx_position_in_block := 1, from_address := "Y",
             token_out := "SHIB", gas_price := 50,
             usd_value_in := 1000, usd_value_out := 1000 }

/-- Unprofitable back leg of the heavily signalled sandwich. -/
def b5 : SwapTransaction :=
  { tx0 with tx_hash := "0xb5", tx_position_in_block := 2, from_address := "X",
             token_in := "SHIB", token_out := "USDC", gas_price := 10,
             is_contract_caller := true, usd_value_in := 100,
             usd_value_out := 0 }

/-- Front leg of a signal-free sandwich whose victim got a worse rate:
the price-impact term fires at its 0.25 cap and proportional sizing
holds, with all gas and contract signals off. -/
def fc : SwapTransaction :=
  { tx0 with tx_hash := "0xfc", from_address := "X", token_out := "SHIB",
             usd_value_in := 100, usd_value_out := 100 }

/-- Victim leg with half the front-runner's execution rate. -/
def vc : SwapTransaction :=
  { tx0 with tx_hash := "0xvc", tx_position_in_block := 1, from_address := "Y",
             token_out := "SHIB", usd_value_in := 1000, usd_value_out := 500 }

/-- Back leg whose output leaves the triple unprofitable. -/
def bc : SwapTransaction :=
  { tx0 with tx_hash := "0xbc", tx_position_in_block := 2, from_address := "X",
             token_in := "SHIB", token_out := "USDC",
             usd_value_in := 100, usd_value_out := 50 }

/-- Constant-product pool for the simulation-detector example: SHIB/USDC
with 100 units on each side. -/
def pS : Pool :=
  { token_a_reserve := 100, token_b_reserve := 100,
    token_a_address := "SHIB", token_b_address := "USDC" }

/-- Front-run of the simulation-detector example. -/
def fS : SwapTransaction :=
  { tx0 with tx_hash := "0xfS", block_number := 9, from_address := "X",
             token_out := "SHIB", amount_in := 100, pool_address := "P" }

/-- Victim of the simulation-detector example; its recorded output is the
exact post-front-run simulated output 50/3. -/
def vS : SwapTransaction :=
  { tx0 with tx_hash := "0xvS", block_number := 9, tx_position_in_block := 1,
             from_address := "Y", token_out := "SHIB", amount_in := 100,
             amount_out := 50 / 3, pool_address := "P" }

/-- Back-run of the simulation-detector example. -/
def bS : SwapTransaction :=
  { tx0 with tx_hash := "0xbS", block_number := 9, tx_position_in_block := 2,
             from_address := "X", token_in := "SHIB", token_out := "USDC",
             amount_in := 50, pool_address := "P" }

/-- The simulation-detector example block. -/
def exS : List SwapTransaction := [fS, vS, bS]

/-- Pool mapping of the simulation-detector example. -/
def pmS : String → Option Pool := fun s => if s == "P" then some pS else none

/-- The finding the simulation detector produces on `exS`: removing the
front-run, the victim would have received 50 instead of 50/3, a 200%
counterfactual difference. -/
def aS : SandwichAttackBySimulation :=
  { front_run_tx := fS, victim_tx := vS, back_run_tx := bS,
    victim_loss_percentage := 200 }

/-- First of two records sharing block 7 and intra-block position 5. -/
def d1 : SwapTransaction :=
  { tx0 with tx_hash := "0xdup1", block_number := 7, tx_position_in_block := 5 }

/-- Second record with the same block and position but a different hash. -/
def d2 : SwapTransaction :=
  { tx0 with tx_hash := "0xdup2", block_number := 7, tx_position_in_block := 5 }

/-- Pool for instantiating the swap formula on the token-A side. -/
def pw : Pool :=
  { token_a_reserve := 6, token_b_reserve := 2,
    token_a_address := "A", token_b_address := "B" }

/-- Swap buying the pool's token A. -/
def wA : SwapTransaction :=
  { tx0 with tx_hash := "0xwA", token_in := "B", token_out := "A",
             amount_in := 2 }

/-- Swap buying the pool's token B. -/
def wB : SwapTransaction :=
  { tx0 with tx_hash := "0xwB", token_in := "A", token_out := "B",
             amount_in := 2 }

/-- Pairwise uniqueness of intra-block positions, the data-model invariant
declared by the specification for `tx_position_in_block`. -/
def distinct_positions (transactions : List SwapTransaction) : Prop :=
  transactions.Pairwise (fun a b => a.block_number = b.block_number →
    a.tx_position_in_block ≠ b.tx_position_in_block)

instance (transactions : List SwapTransaction) :
    Decidable (distinct_positions transactions) := by
  unfold distinct_positions
  infer_instance

/-! Helper lemmas shared across the claim theorems. -/

/-- The head of a nonempty list is a member of it. -/
lemma headI_mem_of_isEmpty_eq_false {α : Type} [Inhabited α] {l : List α}
    (h : l.isEmpty = false) : l.headI ∈ l := by
  cases l with
  | nil => simp at h
  | cons a l => simp [List.headI]

/-- Conditional increments of the scorers are non-negative. -/
lemma ite_incr_nonneg (c : Prop) [Decidable c] (w : ℚ) (hw : 0 ≤ w) :
    0 ≤ if c then w else 0 := by
  split_ifs with h
  · exact hw
  · exact le_refl 0

/-- The capped price-impact increment lies in `[0, 0.25]`. -/
lemma impact_incr_bounds (p : ℚ) :
    0 ≤ (if p > 0 then (if p < 0.25 then p else 0.25) else 0)
    ∧ (if p > 0 then (if p < 0.25 then p else 0.25) else 0) ≤ 0.25 := by
  split_ifs with h1 h2 <;> constructor <;> linarith

/-- The final `if confidence > 1.0 { 1.0 } else { confidence }` clamp keeps
the score in `[0.5, 1]` whenever the unclamped sum is at least `0.5`. -/
lemma clamp_bounds (c : ℚ) (h : 0.5 ≤ c) :
    0.5 ≤ (if c > 1 then 1 else c) ∧ (if c > 1 then 1 else c) ≤ 1 := by
  split_ifs with h1 <;> constructor <;> linarith

/-- The unclamped richer-variant sum is at least its base 0.5. -/
lemma raw_confidence_ge (front victim back : SwapTransaction) :
    0.5 ≤ SameBlock.raw_confidence front victim back := by
  unfold SameBlock.raw_confidence
  have h1 := ite_incr_nonneg (front.gas_price > victim.gas_price) 0.2 (by norm_num)
  have h2 := ite_incr_nonneg (back.gas_price < victim.gas_price) 0.1 (by norm_num)
  have h3 := ite_incr_nonneg (front.is_contract_caller = true) 0.1 (by norm_num)
  have h4 := ite_incr_nonneg (back.is_contract_caller = true) 0.1 (by norm_num)
  have h5 := ite_incr_nonneg (SameBlock.total_profit_usd front back > 0) 0.25 (by norm_num)
  have h6 := ite_incr_nonneg
    (SameBlock.is_proportional_sandwich front victim back = true) 0.15 (by norm_num)
  have h7 := (impact_incr_bounds (SameBlock.calculate_victim_price_impact front victim)).1
  simp only [Bool.ite_eq_true_distrib] at *
  linarith

/-! Claim theorems. -/

/-- C1: `simulate_swap` returns `tokens_received = output_reserve * amount_in
/ (input_reserve + amount_in)` where the output reserve is the pool side
whose token address matches `token_out` and the input reserve is the other
side; the new pool adds `amount_in` to the input side and subtracts
`tokens_received` from the output side; and a block trajectory is the fold
of this transition over the ordered transactions (the original pool value
feeds each step unchanged). -/
theorem simulate_swap_constant_product (p : Pool) (s : SwapTransaction) :
    (s.token_out = p.token_a_address →
      (p.simulate_swap s).tokens_received
          = p.token_a_reserve * s.amount_in / (p.token_b_reserve + s.amount_in)
        ∧ (p.simulate_swap s).new_pool_state.token_b_reserve
          = p.token_b_reserve + s.amount_in
        ∧ (p.simulate_swap s).new_pool_state.token_a_reserve
          = p.token_a_reserve - (p.simulate_swap s).tokens_received)
    ∧ (s.token_out ≠ p.token_a_address → s.token_out = p.token_b_address →
      (p.simulate_swap s).tokens_received
          = p.token_b_reserve * s.amount_in / (p.token_a_reserve + s.amount_in)
        ∧ (p.simulate_swap s).new_pool_state.token_a_reserve
          = p.token_a_reserve + s.amount_in
        ∧ (p.simulate_swap s).new_pool_state.token_b_reserve
          = p.token_b_reserve - (p.simulate_swap s).tokens_received)
    ∧ (∀ (initial : Pool) (txs : List SwapTransaction),
        replay_swaps initial txs
          = txs.foldl (fun pool tx => (pool.simulate_swap tx).new_pool_state) initial) := by
  refine ⟨fun h => ?_, fun h _ => ?_, fun _ _ => rfl⟩
  · simp [Pool.simulate_swap, Pool.constant_product_formula, h]
  · simp [Pool.simulate_swap, Pool.constant_product_formula, h]

/-- C1 witness: the formula evaluated on both sides of a concrete pool. -/
theorem simulate_swap_constant_product_witness :
    ((pw.simulate_swap wA).tokens_received
        = pw.token_a_reserve * wA.amount_in / (pw.token_b_reserve + wA.amount_in)
      ∧ (pw.simulate_swap wA).new_pool_state.token_b_reserve
        = pw.token_b_reserve + wA.amount_in
      ∧ (pw.simulate_swap wA).new_pool_state.token_a_reserve
        = pw.token_a_reserve - (pw.simulate_swap wA).tokens_received)
    ∧ ((pw.simulate_swap wB).tokens_received
        = pw.token_b_reserve * wB.amount_in / (pw.token_a_reserve + wB.amount_in)
      ∧ (pw.simulate_swap wB).new_pool_state.token_a_reserve
        = pw.token_a_reserve + wB.amount_in
      ∧ (pw.simulate_swap wB).new_pool_state.token_b_reserve
        = pw.token_b_reserve - (pw.simulate_swap wB).tokens_received) :=
  ⟨(simulate_swap_constant_product pw wA).1 rfl,
   (simulate_swap_constant_product pw wB).2.1 (by decide) rfl⟩

/-- C10: a simulated swap never changes the pool's token pair, and neither
does replaying any sequence of transactions. -/
theorem simulate_swap_preserves_pair (p : Pool) (s : SwapTransaction) :
    (p.simulate_swap s).new_pool_state.token_a_address = p.token_a_address
    ∧ (p.simulate_swap s).new_pool_state.token_b_address = p.token_b_address
    ∧ ∀ (txs : List SwapTransaction),
        (replay_swaps p txs).token_a_address = p.token_a_address
        ∧ (replay_swaps p txs).token_b_address = p.token_b_address := by
  refine ⟨rfl, rfl, fun txs => ?_⟩
  induction txs generalizing p with
  | nil => exact ⟨rfl, rfl⟩
  | cons t ts ih =>
    have h := ih ((p.simulate_swap t).new_pool_state)
    simp only [replay_swaps, List.foldl_cons] at h ⊢
    exact h

/-- C4: both scorers stay within `[base, 1.0]` where the base of each
variant is the starting value 0.5: the clamp caps at 1.0 from above and the
score never falls below the base. -/
theorem confidence_score_bounds (front victim back : SwapTransaction) :
    (0.5 ≤ Detector.calculate_sandwich_confidence front victim back
      ∧ Detector.calculate_sandwich_confidence front victim back ≤ 1)
    ∧ (0.5 ≤ (SameBlock.calculate_sandwich_confidence front victim back).1
      ∧ (SameBlock.calculate_sandwich_confidence front victim back).1 ≤ 1) := by
  constructor
  · unfold Detector.calculate_sandwich_confidence
    apply clamp_bounds
    have h1 := ite_incr_nonneg (front.gas_price > victim.gas_price) 0.2 (by norm_num)
    have h2 := ite_incr_nonneg (back.gas_price < victim.gas_price) 0.1 (by norm_num)
    have h3 := ite_incr_nonneg (front.is_contract_caller = true) 0.1 (by norm_num)
    have h4 := ite_incr_nonneg (back.is_contract_caller = true) 0.1 (by norm_num)
    have h5 := ite_incr_nonneg (back.amount_out > front.amount_in) 0.25 (by norm_num)
    simp only [Bool.ite_eq_true_distrib] at *
    linarith
  · unfold SameBlock.calculate_sandwich_confidence
    exact clamp_bounds _ (raw_confidence_ge front victim back)

/-- C8 counterexample: a matched triple with every additive signal off
(equal gas prices, no contract callers, non-positive profit, not
proportional, zero price impact) receives confidence 0.5, not the claimed
0.3: the richer variant's base in the code is 0.5. -/
theorem base_confidence_counterexample :
    SameBlock.is_sandwich_pattern t61 t62 t63 = true
    ∧ ¬ t61.gas_price > t62.gas_price
    ∧ ¬ t63.gas_price < t62.gas_price
    ∧ t61.is_contract_caller = false
    ∧ t63.is_contract_caller = false
    ∧ ¬ SameBlock.total_profit_usd t61 t63 > 0
    ∧ SameBlock.is_proportional_sandwich t61 t62 t63 = false
    ∧ SameBlock.calculate_victim_price_impact t61 t62 = 0
    ∧ (SameBlock.calculate_sandwich_confidence t61 t62 t63).1 = 0.5
    ∧ (SameBlock.calculate_sandwich_confidence t61 t62 t63).1 ≠ 0.3 := by
  refine ⟨by decide, by decide, by decide, by decide, by decide, ?_, ?_, ?_, ?_, ?_⟩
  · norm_num [SameBlock.total_profit_usd, t61, t63, tx0]
  · norm_num [SameBlock.is_proportional_sandwich, t61, t62, t63, tx0]
  · norm_num [SameBlock.calculate_victim_price_impact, are_tokens_equivalent,
      get_token_equivalence_group, t61, t62, tx0]
  · norm_num [SameBlock.calculate_sandwich_confidence, SameBlock.raw_confidence,
      SameBlock.total_profit_usd, SameBlock.is_proportional_sandwich,
      SameBlock.calculate_victim_price_impact, are_tokens_equivalent,
      get_token_equivalence_group, t61, t62, t63, tx0]
  · norm_num [SameBlock.calculate_sandwich_confidence, SameBlock.raw_confidence,
      SameBlock.total_profit_usd, SameBlock.is_proportional_sandwich,
      SameBlock.calculate_victim_price_impact, are_tokens_equivalent,
      get_token_equivalence_group, t61, t62, t63, tx0]

/-- C8 amended: in the richer scoring variant the base confidence is 0.5: a
matched triple for which no additive signal fires receives exactly 0.5. -/
theorem base_confidence_is_half (front victim back : SwapTransaction)
    (h1 : ¬ front.gas_price > victim.gas_price)
    (h2 : ¬ back.gas_price < victim.gas_price)
    (h3 : front.is_contract_caller = false)
    (h4 : back.is_contract_caller = false)
    (h5 : ¬ SameBlock.total_profit_usd front back > 0)
    (h6 : SameBlock.is_proportional_sandwich front victim back = false)
    (h7 : ¬ SameBlock.calculate_victim_price_impact front victim > 0) :
    (SameBlock.calculate_sandwich_confidence front victim back).1 = 0.5 := by
  unfold SameBlock.calculate_sandwich_confidence SameBlock.raw_confidence
  simp only [h3, h4, h6, if_neg h1, if_neg h2, if_neg h5, if_neg h7,
    Bool.false_eq_true, if_false]
  norm_num

/-- C8 witness: the amended base applied to the no-signal triple. -/
theorem base_confidence_is_half_witness :
    (SameBlock.calculate_sandwich_confidence t61 t62 t63).1 = 0.5 :=
  base_confidence_is_half t61 t62 t63 (by decide) (by decide) (by decide) (by decide)
    (by norm_num [SameBlock.total_profit_usd, t61, t63, tx0])
    (by norm_num [SameBlock.is_proportional_sandwich, t61, t62, t63, tx0])
    (by norm_num [SameBlock.calculate_victim_price_impact, are_tokens_equivalent,
      get_token_equivalence_group, t61, t62, tx0])

/-- C9: the grouping step silently accepts two records sharing block 7 and
intra-block position 5: both are kept in the block's bucket in input order
and no error of any kind is signalled (the function's type has no error
output), contradicting the required data-quality flagging. -/
theorem duplicate_positions_silently_grouped :
    d1.tx_position_in_block = d2.tx_position_in_block
    ∧ d1 ≠ d2
    ∧ SameBlock.group_transactions_by_block [d1, d2] = [(7, [d1, d2])]
    ∧ Detector.group_transactions_by_block [d1, d2] = [(7, [d1, d2])] := by
  refine ⟨by decide, by decide, by decide, by decide⟩

/-- Restatement of the unclamped richer-variant sum as its eight explicit
addends. -/
lemma raw_confidence_eq (front victim back : SwapTransaction) :
    SameBlock.raw_confidence front victim back
      = 0.5
        + (if front.gas_price > victim.gas_price then 0.2 else 0)
        + (if back.gas_price < victim.gas_price then 0.1 else 0)
        + (if front.is_contract_caller then 0.1 else 0)
        + (if back.is_contract_caller then 0.1 else 0)
        + (if SameBlock.total_profit_usd front back > 0 then 0.25 else 0)
        + (if SameBlock.is_proportional_sandwich front victim back then 0.15 else 0)
        + (if SameBlock.calculate_victim_price_impact front victim > 0 then
            (if SameBlock.calculate_victim_price_impact front victim < 0.25 then
              SameBlock.calculate_victim_price_impact front victim
            else 0.25)
          else 0) := rfl

/-- Changing only the fields that feed nothing but the profit term — the
back leg's `usd_value_out` and the two `gas_cost_usd` fields — leaves every
non-profit term of the unclamped richer-variant sum unchanged. -/
lemma raw_confidence_update (front victim back : SwapTransaction)
    (gf' u' gb' : ℚ) :
    SameBlock.raw_confidence { front with gas_cost_usd := gf' } victim
        { back with usd_value_out := u', gas_cost_usd := gb' }
      = 0.5
        + (if front.gas_price > victim.gas_price then 0.2 else 0)
        + (if back.gas_price < victim.gas_price then 0.1 else 0)
        + (if front.is_contract_caller then 0.1 else 0)
        + (if back.is_contract_caller then 0.1 else 0)
        + (if SameBlock.total_profit_usd { front with gas_cost_usd := gf' }
              { back with usd_value_out := u', gas_cost_usd := gb' } > 0
            then 0.25 else 0)
        + (if SameBlock.is_proportional_sandwich front victim back then 0.15 else 0)
        + (if SameBlock.calculate_victim_price_impact front victim > 0 then
            (if SameBlock.calculate_victim_price_impact front victim < 0.25 then
              SameBlock.calculate_victim_price_impact front victim
            else 0.25)
          else 0) := rfl

/-- Conditional weight increments never exceed their weight. -/
lemma ite_incr_le (c : Prop) [Decidable c] (w : ℚ) (hw : 0 ≤ w) :
    (if c then w else 0) ≤ w := by
  split_ifs with h
  · exact le_refl w
  · exact hw

/-- The capped price-impact increment is monotone: it suffices that the raw
impacts compare, or both sit at or above the cap, or the smaller side is
non-positive. -/
lemma impact_incr_le_of_cases (p q : ℚ)
    (h : p ≤ q ∨ (0.25 ≤ p ∧ 0.25 ≤ q) ∨ p ≤ 0) :
    (if p > 0 then (if p < 0.25 then p else 0.25) else 0)
      ≤ (if q > 0 then (if q < 0.25 then q else 0.25) else 0) := by
  rcases h with h | ⟨h1, h2⟩ | h <;> split_ifs <;> linarith

/-- Lowering a positive front `usd_value_in` never lowers the capped
price-impact increment: the front execution rate `usd_value_out /
usd_value_in` can only rise (or the increment is already zero or at its
cap). -/
lemma impact_increment_mono (front victim : SwapTransaction) (i' : ℚ)
    (hi : 0 < front.usd_value_in) (hi' : 0 < i')
    (hle : i' ≤ front.usd_value_in) :
    (if SameBlock.calculate_victim_price_impact front victim > 0 then
      (if SameBlock.calculate_victim_price_impact front victim < 0.25 then
        SameBlock.calculate_victim_price_impact front victim
      else 0.25)
    else 0)
    ≤ (if SameBlock.calculate_victim_price_impact
          { front with usd_value_in := i' } victim > 0 then
        (if SameBlock.calculate_victim_price_impact
            { front with usd_value_in := i' } victim < 0.25 then
          SameBlock.calculate_victim_price_impact
            { front with usd_value_in := i' } victim
        else 0.25)
      else 0) := by
  apply impact_incr_le_of_cases
  unfold SameBlock.calculate_victim_price_impact
  dsimp only
  by_cases hg : (!are_tokens_equivalent front.token_in victim.token_in
      || !are_tokens_equivalent front.token_out victim.token_out) = true
  · rw [if_pos hg, if_pos hg]
    exact Or.inl le_rfl
  · rw [if_neg hg, if_neg hg]
    by_cases h1 : victim.usd_value_out / victim.usd_value_in
        < front.usd_value_out / front.usd_value_in
    · by_cases h2 : victim.usd_value_out / victim.usd_value_in
          < front.usd_value_out / i'
      · rw [if_pos h1, if_pos h2]
        rcases lt_trichotomy front.usd_value_out 0 with hout | hout | hout
        · refine Or.inr (Or.inr ?_)
          have hfr : front.usd_value_out / front.usd_value_in < 0 :=
            div_neg_of_neg_of_pos hout hi
          exact div_nonpos_of_nonneg_of_nonpos (by linarith) (le_of_lt hfr)
        · refine Or.inr (Or.inr ?_)
          rw [hout]
          simp [zero_div, div_zero]
        · have hfr : 0 < front.usd_value_out / front.usd_value_in :=
            div_pos hout hi
          have hfr' : 0 < front.usd_value_out / i' := div_pos hout hi'
          have hff : front.usd_value_out / front.usd_value_in
              ≤ front.usd_value_out / i' :=
            div_le_div_of_nonneg_left (le_of_lt hout) hi' hle
          rcases le_or_lt (victim.usd_value_out / victim.usd_value_in) 0 with
            hvr | hvr
          · refine Or.inr (Or.inl ?_)
            constructor
            · rw [sub_div, div_self (ne_of_gt hfr)]
              have hq : victim.usd_value_out / victim.usd_value_in
                  / (front.usd_value_out / front.usd_value_in) ≤ 0 :=
                div_nonpos_of_nonpos_of_nonneg hvr (le_of_lt hfr)
              linarith
            · rw [sub_div, div_self (ne_of_gt hfr')]
              have hq : victim.usd_value_out / victim.usd_value_in
                  / (front.usd_value_out / i') ≤ 0 :=
                div_nonpos_of_nonpos_of_nonneg hvr (le_of_lt hfr')
              linarith
          · refine Or.inl ?_
            rw [sub_div, sub_div, div_self (ne_of_gt hfr),
              div_self (ne_of_gt hfr')]
            have hq : victim.usd_value_out / victim.usd_value_in
                  / (front.usd_value_out / i')
                ≤ victim.usd_value_out / victim.usd_value_in
                  / (front.usd_value_out / front.usd_value_in) :=
              div_le_div_of_nonneg_left (le_of_lt hvr) hfr hff
            linarith
      · rw [if_pos h1, if_neg h2]
        refine Or.inr (Or.inr ?_)
        rcases le_or_lt 0 front.usd_value_out with ho | ho
        · exfalso
          have hff : front.usd_value_out / front.usd_value_in
              ≤ front.usd_value_out / i' :=
            div_le_div_of_nonneg_left ho hi' hle
          exact h2 (lt_of_lt_of_le h1 hff)
        · have hfr : front.usd_value_out / front.usd_value_in < 0 :=
            div_neg_of_neg_of_pos ho hi
          exact div_nonpos_of_nonneg_of_nonpos (by linarith) (le_of_lt hfr)
    · rw [if_neg h1]
      exact Or.inr (Or.inr le_rfl)

/-- C5 counterexamples: three pairs of matched triples, each identical
except in profit-determining fields, with one triple profitable and the
other not, on which the richer scorer does not give the profitable triple
strictly higher confidence.  First, with both unclamped sums above 1.0, the
two scores tie at the clamp.  Second, with all USD values positive and both
sums below the clamp, a pair differing in `front.usd_value_in` and
`back.usd_value_out` scores the profitable triple strictly lower: the
larger front leg forfeits the proportional-sizing and price-impact terms
(0.15 + 0.25), which outweigh the 0.25 profit bonus.  Third, the same
reversal occurs for a pair differing only in `front.usd_value_in` when the
profitable value is negative. -/
theorem profit_confidence_counterexamples :
    (SameBlock.is_sandwich_pattern f5 v5 b5 = true
      ∧ SameBlock.is_sandwich_pattern f5 v5 { b5 with usd_value_out := 1000 } = true
      ∧ SameBlock.total_profit_usd f5 { b5 with usd_value_out := 1000 } > 0
      ∧ ¬ SameBlock.total_profit_usd f5 b5 > 0
      ∧ (SameBlock.calculate_sandwich_confidence f5 v5
            { b5 with usd_value_out := 1000 }).1
          = (SameBlock.calculate_sandwich_confidence f5 v5 b5).1)
    ∧ (SameBlock.is_sandwich_pattern fc vc bc = true
      ∧ SameBlock.is_sandwich_pattern { fc with usd_value_in := 5000 } vc
          { bc with usd_value_out := 6000 } = true
      ∧ SameBlock.total_profit_usd { fc with usd_value_in := 5000 }
          { bc with usd_value_out := 6000 } > 0
      ∧ ¬ SameBlock.total_profit_usd fc bc > 0
      ∧ SameBlock.raw_confidence { fc with usd_value_in := 5000 } vc
          { bc with usd_value_out := 6000 } ≤ 1
      ∧ SameBlock.raw_confidence fc vc bc ≤ 1
      ∧ (SameBlock.calculate_sandwich_confidence { fc with usd_value_in := 5000 }
            vc { bc with usd_value_out := 6000 }).1
          < (SameBlock.calculate_sandwich_confidence fc vc bc).1)
    ∧ (SameBlock.is_sandwich_pattern { fc with usd_value_in := -50 } vc bc = true
      ∧ SameBlock.total_profit_usd { fc with usd_value_in := -50 } bc > 0
      ∧ SameBlock.raw_confidence { fc with usd_value_in := -50 } vc bc ≤ 1
      ∧ (SameBlock.calculate_sandwich_confidence { fc with usd_value_in := -50 }
            vc bc).1
          < (SameBlock.calculate_sandwich_confidence fc vc bc).1) := by
  refine ⟨⟨by decide, by decide, ?_, ?_, ?_⟩,
    ⟨by decide, by decide, ?_, ?_, ?_, ?_, ?_⟩, ⟨by decide, ?_, ?_, ?_⟩⟩
  · norm_num [SameBlock.total_profit_usd, f5, b5, tx0]
  · norm_num [SameBlock.total_profit_usd, f5, b5, tx0]
  · norm_num [SameBlock.calculate_sandwich_confidence, SameBlock.raw_confidence,
      SameBlock.total_profit_usd, SameBlock.is_proportional_sandwich,
      SameBlock.calculate_victim_price_impact, are_tokens_equivalent,
      get_token_equivalence_group, f5, v5, b5, tx0]
  · norm_num [SameBlock.total_profit_usd, fc, bc, tx0]
  · norm_num [SameBlock.total_profit_usd, fc, bc, tx0]
  · norm_num [SameBlock.raw_confidence, SameBlock.total_profit_usd,
      SameBlock.is_proportional_sandwich, SameBlock.calculate_victim_price_impact,
      are_tokens_equivalent, get_token_equivalence_group, fc, vc, bc, tx0]
  · norm_num [SameBlock.raw_confidence, SameBlock.total_profit_usd,
      SameBlock.is_proportional_sandwich, SameBlock.calculate_victim_price_impact,
      are_tokens_equivalent, get_token_equivalence_group, fc, vc, bc, tx0]
  · norm_num [SameBlock.calculate_sandwich_confidence, SameBlock.raw_confidence,
      SameBlock.total_profit_usd, SameBlock.is_proportional_sandwich,
      SameBlock.calculate_victim_price_impact, are_tokens_equivalent,
      get_token_equivalence_group, fc, vc, bc, tx0]
  · norm_num [SameBlock.total_profit_usd, fc, bc, tx0]
  · norm_num [SameBlock.raw_confidence, SameBlock.total_profit_usd,
      SameBlock.is_proportional_sandwich, SameBlock.calculate_victim_price_impact,
      are_tokens_equivalent, get_token_equivalence_group, fc, vc, bc, tx0]
  · norm_num [SameBlock.calculate_sandwich_confidence, SameBlock.raw_confidence,
      SameBlock.total_profit_usd, SameBlock.is_proportional_sandwich,
      SameBlock.calculate_victim_price_impact, are_tokens_equivalent,
      get_token_equivalence_group, fc, vc, bc, tx0]

/-- C5 amended: for two matched triples identical except in
profit-determining fields, the profitable triple scores strictly higher
than the unprofitable one, below the 1.0 clamp, on the two families the
code supports: first, when the differing fields are among
`back.usd_value_out`, `front.gas_cost_usd` and `back.gas_cost_usd` — the
fields feeding only the profit term — in any combination; second, when
only `front.usd_value_in` differs and both its values are positive (that
field also drives the proportional-sizing and price-impact terms, whose
swing stays within the 0.25 profit bonus in this regime).  At the clamp the
scores can tie, and outside these families the comparison can reverse (see
the counterexamples). -/
theorem profit_strictly_raises_confidence :
    (∀ (front victim back : SwapTransaction) (gf' u' gb' : ℚ),
      SameBlock.total_profit_usd { front with gas_cost_usd := gf' }
          { back with usd_value_out := u', gas_cost_usd := gb' } > 0 →
      ¬ SameBlock.total_profit_usd front back > 0 →
      SameBlock.raw_confidence { front with gas_cost_usd := gf' } victim
          { back with usd_value_out := u', gas_cost_usd := gb' } ≤ 1 →
      (SameBlock.calculate_sandwich_confidence front victim back).1
        < (SameBlock.calculate_sandwich_confidence
            { front with gas_cost_usd := gf' } victim
            { back with usd_value_out := u', gas_cost_usd := gb' }).1)
    ∧ (∀ (front victim back : SwapTransaction) (i' : ℚ),
      0 < front.usd_value_in → 0 < i' →
      SameBlock.total_profit_usd { front with usd_value_in := i' } back > 0 →
      ¬ SameBlock.total_profit_usd front back > 0 →
      SameBlock.raw_confidence { front with usd_value_in := i' } victim back ≤ 1 →
      (SameBlock.calculate_sandwich_confidence front victim back).1
        < (SameBlock.calculate_sandwich_confidence
            { front with usd_value_in := i' } victim back).1) := by
  constructor
  · intro front victim back gf' u' gb' hp hn hcap
    have hkey : SameBlock.raw_confidence { front with gas_cost_usd := gf' } victim
          { back with usd_value_out := u', gas_cost_usd := gb' }
        = SameBlock.raw_confidence front victim back + 0.25 := by
      rw [raw_confidence_update, if_pos hp, raw_confidence_eq front victim back,
        if_neg hn]
      ring
    rw [hkey] at hcap
    simp only [SameBlock.calculate_sandwich_confidence]
    rw [hkey]
    have h1 : ¬ SameBlock.raw_confidence front victim back + 0.25 > 1 := by linarith
    have h2 : ¬ SameBlock.raw_confidence front victim back > 1 := by linarith
    rw [if_neg h1, if_neg h2]
    linarith
  · intro front victim back i' hi hi' hp hn hcap
    have hii : i' < front.usd_value_in := by
      unfold SameBlock.total_profit_usd at hp hn
      dsimp only at hp
      push_neg at hn
      linarith
    have h7 := impact_increment_mono front victim i' hi hi' (le_of_lt hii)
    have h8 : (0:ℚ) ≤ (if SameBlock.is_proportional_sandwich
        { front with usd_value_in := i' } victim back = true then 0.15 else 0) :=
      ite_incr_nonneg _ _ (by norm_num)
    have h9 : (if SameBlock.is_proportional_sandwich front victim back = true
        then (0.15:ℚ) else 0) ≤ 0.15 :=
      ite_incr_le _ _ (by norm_num)
    have hraw : SameBlock.raw_confidence front victim back + 0.1
        ≤ SameBlock.raw_confidence { front with usd_value_in := i' } victim back := by
      rw [raw_confidence_eq front victim back,
        raw_confidence_eq { front with usd_value_in := i' } victim back]
      dsimp only
      rw [if_pos hp, if_neg hn]
      simp only [Bool.ite_eq_true_distrib] at h8 h9
      linarith [h7, h8, h9]
    simp only [SameBlock.calculate_sandwich_confidence]
    have hA : ¬ SameBlock.raw_confidence { front with usd_value_in := i' }
        victim back > 1 := by linarith
    have hB : ¬ SameBlock.raw_confidence front victim back > 1 := by linarith
    rw [if_neg hB, if_neg hA]
    linarith

/-- C5 witness: both amended families at concrete inputs: a pair differing
in the back leg's `usd_value_out` and `gas_cost_usd`, and a pair differing
only in a positive `front.usd_value_in`. -/
theorem profit_strictly_raises_confidence_witness :
    ((SameBlock.calculate_sandwich_confidence t61 t62 t63).1
      < (SameBlock.calculate_sandwich_confidence
          { t61 with gas_cost_usd := 1 } t62
          { t63 with usd_value_out := 1000, gas_cost_usd := 0.5 }).1)
    ∧ ((SameBlock.calculate_sandwich_confidence fc vc bc).1
      < (SameBlock.calculate_sandwich_confidence
          { fc with usd_value_in := 10 } vc bc).1) :=
  ⟨profit_strictly_raises_confidence.1 t61 t62 t63 1 1000 0.5
    (by norm_num [SameBlock.total_profit_usd, t61, t63, tx0])
    (by norm_num [SameBlock.total_profit_usd, t61, t63, tx0])
    (by norm_num [SameBlock.raw_confidence, SameBlock.total_profit_usd,
      SameBlock.is_proportional_sandwich, SameBlock.calculate_victim_price_impact,
      are_tokens_equivalent, get_token_equivalence_group, t61, t62, t63, tx0]),
   profit_strictly_raises_confidence.2 fc vc bc 10
    (by norm_num [fc, tx0])
    (by norm_num)
    (by norm_num [SameBlock.total_profit_usd, fc, bc, tx0])
    (by norm_num [SameBlock.total_profit_usd, fc, bc, tx0])
    (by norm_num [SameBlock.raw_confidence, SameBlock.total_profit_usd,
      SameBlock.is_proportional_sandwich, SameBlock.calculate_victim_price_impact,
      are_tokens_equivalent, get_token_equivalence_group, fc, vc, bc, tx0])⟩

/-- Composing the three sequential filters of the counterfactual stage into
one pass over the input list. -/
lemma counterfactual_filter_eq (front victim : SwapTransaction)
    (all_transactions : List SwapTransaction) :
    ((all_transactions.filter
        (fun tx => tx.pool_address == victim.pool_address)).filter
        (fun tx => decide (tx.tx_position_in_block < victim.tx_position_in_block))).filter
        (fun tx => tx.tx_position_in_block != front.tx_position_in_block)
      = all_transactions.filter (fun tx =>
          tx.pool_address == victim.pool_address
          && decide (tx.tx_position_in_block < victim.tx_position_in_block)
          && tx.tx_position_in_block != front.tx_position_in_block) := by
  rw [List.filter_filter, List.filter_filter]
  refine List.filter_congr fun a _ => ?_
  cases hb1 : (a.pool_address == victim.pool_address) <;>
    cases hb2 : (decide (a.tx_position_in_block < victim.tx_position_in_block)) <;>
      cases hb3 : (a.tx_position_in_block != front.tx_position_in_block) <;>
        simp [hb1, hb2, hb3]

/-- Composing the two sequential filters of the reality-check stage into
one pass over the input list. -/
lemma reality_filter_eq (victim : SwapTransaction)
    (all_transactions : List SwapTransaction) :
    (all_transactions.filter
        (fun tx => tx.pool_address == victim.pool_address)).filter
        (fun tx => decide (tx.tx_position_in_block < victim.tx_position_in_block))
      = all_transactions.filter (fun tx =>
          tx.pool_address == victim.pool_address
          && decide (tx.tx_position_in_block < victim.tx_position_in_block)) := by
  rw [List.filter_filter]
  refine List.filter_congr fun a _ => ?_
  cases hb1 : (a.pool_address == victim.pool_address) <;>
    cases hb2 : (decide (a.tx_position_in_block < victim.tx_position_in_block)) <;>
      simp [hb1, hb2]

/-- C3: when the per-candidate simulation succeeds, the reported loss is
obtained by replaying exactly the pre-victim pool transactions whose
position differs from the front-run's, re-simulating the victim, and taking
`|actual_out - counterfactual_out| / actual_out * 100`; the figure is never
negative. -/
theorem counterfactual_loss_spec (initial_pool : Pool)
    (front victim back : SwapTransaction)
    (all_transactions : List SwapTransaction)
    (attack : SandwichAttackBySimulation)
    (hok : simulate_sandwich_attack initial_pool front victim back all_transactions
      = Except.ok attack)
    (hpos : 0 < victim.amount_out) :
    attack.victim_loss_percentage
        = |victim.amount_out -
            ((replay_swaps initial_pool
              (all_transactions.filter (fun tx =>
                tx.pool_address == victim.pool_address
                && decide (tx.tx_position_in_block < victim.tx_position_in_block)
                && tx.tx_position_in_block != front.tx_position_in_block))).simulate_swap
                  victim).tokens_received|
          / victim.amount_out * 100
    ∧ 0 ≤ attack.victim_loss_percentage := by
  unfold simulate_sandwich_attack at hok
  dsimp only at hok
  split_ifs at hok with hempty hcheck
  injection hok with h
  subst h
  unfold simulate_without_attacker
  rw [counterfactual_filter_eq front victim all_transactions]
  constructor
  · rw [abs_mul, abs_div, abs_of_pos hpos]
    norm_num
  · positivity

/-- C3 witness: a successful candidate on pool `p3` reports the
counterfactual formula value, here zero. -/
theorem counterfactual_loss_spec_witness :
    a3.victim_loss_percentage
        = |v3.amount_out -
            ((replay_swaps p3
              ([v3].filter (fun tx =>
                tx.pool_address == v3.pool_address
                && decide (tx.tx_position_in_block < v3.tx_position_in_block)
                && tx.tx_position_in_block != v3.tx_position_in_block))).simulate_swap
                  v3).tokens_received|
          / v3.amount_out * 100
    ∧ 0 ≤ a3.victim_loss_percentage :=
  counterfactual_loss_spec p3 v3 v3 v3 [v3] a3
    (by norm_num [simulate_sandwich_attack, check_simulation_is_like_reality,
      simulate_without_attacker, replay_swaps, Pool.simulate_swap,
      Pool.constant_product_formula, Pool.get_token_a_price, Pool.get_token_b_price,
      Pool.calculate_slippage, a3, v3, p3, tx0])
    (by norm_num [v3, tx0])

/-- C2 counterexample: at a relative difference of exactly one percent
(recorded output 100, simulated output 99) the candidate is rejected, even
though the difference does not exceed 1%: the code's acceptance condition
is `difference < 1.0`, so the boundary case is already rejected. -/
theorem reality_check_boundary_counterexample :
    (simulate_sandwich_attack p2 v2 v2 v2 [v2]).isOk = false
    ∧ |(v2.amount_out -
        ((replay_swaps p2 ([v2].filter (fun tx =>
            tx.pool_address == v2.pool_address
            && decide (tx.tx_position_in_block < v2.tx_position_in_block)))).simulate_swap
              v2).tokens_received) / v2.amount_out * 100| = 1 := by
  constructor
  · norm_num [simulate_sandwich_attack, check_simulation_is_like_reality, replay_swaps,
      Pool.simulate_swap, Pool.constant_product_formula, Pool.get_token_a_price,
      Pool.get_token_b_price, Pool.calculate_slippage, Except.isOk, Except.toBool,
      v2, p2, tx0]
  · norm_num [replay_swaps, Pool.simulate_swap, Pool.constant_product_formula,
      Pool.get_token_a_price, Pool.get_token_b_price, Pool.calculate_slippage,
      v2, p2, tx0]

/-- C2 amended: with the victim present in the (position-sorted) input, the
reality check replays exactly the transactions routed through the victim's
pool strictly before the victim's position, in position order, simulates
the victim on the resulting pool, and the candidate is rejected (with an
error, producing no loss figure) exactly when the relative difference
between simulated and recorded output is at least 1% (not strictly more
than 1%). -/
theorem reality_check_rejects_iff (initial_pool : Pool)
    (front victim back : SwapTransaction)
    (all_transactions : List SwapTransaction)
    (hmem : victim ∈ all_transactions)
    (hsorted : all_transactions.Pairwise posLe) :
    (all_transactions.filter (fun tx =>
        tx.pool_address == victim.pool_address
        && decide (tx.tx_position_in_block < victim.tx_position_in_block))).Pairwise posLe
    ∧ ((simulate_sandwich_attack initial_pool front victim back all_transactions).isOk
          = false
      ↔ 1 ≤ |(victim.amount_out -
          ((replay_swaps initial_pool
            (all_transactions.filter (fun tx =>
              tx.pool_address == victim.pool_address
              && decide (tx.tx_position_in_block < victim.tx_position_in_block)))).simulate_swap
                victim).tokens_received) / victim.amount_out * 100|) := by
  constructor
  · exact List.Pairwise.sublist (List.filter_sublist all_transactions) hsorted
  · have hmem2 : victim ∈ all_transactions.filter
        (fun tx => tx.pool_address == victim.pool_address) :=
      List.mem_filter.mpr (by simp [hmem])
    have hne : (all_transactions.filter
        (fun tx => tx.pool_address == victim.pool_address)).isEmpty = false := by
      cases he : all_transactions.filter (fun tx => tx.pool_address == victim.pool_address) with
      | nil => rw [he] at hmem2; simp at hmem2
      | cons a l => rfl
    unfold simulate_sandwich_attack
    dsimp only
    rw [hne]
    simp only [Bool.false_eq_true, if_false]
    unfold check_simulation_is_like_reality
    dsimp only
    rw [reality_filter_eq victim all_transactions]
    set diff := |(victim.amount_out -
        ((replay_swaps initial_pool
          (all_transactions.filter (fun tx =>
            tx.pool_address == victim.pool_address
            && decide (tx.tx_position_in_block < victim.tx_position_in_block)))).simulate_swap
              victim).tokens_received) / victim.amount_out * 100| with hdiff
    by_cases hlt : diff < 1
    · rw [decide_eq_true hlt]
      simp only [Bool.not_true, Bool.false_eq_true, if_false]
      exact iff_of_false (by simp [Except.isOk, Except.toBool]) (by linarith)
    · rw [decide_eq_false hlt]
      simp only [Bool.not_false, if_true]
      exact iff_of_true rfl (not_lt.mp hlt)

/-- C2 witness: the amended rejection condition applied at the exact
one-percent boundary input, where it rejects. -/
theorem reality_check_rejects_iff_witness :
    (simulate_sandwich_attack p2 v2 v2 v2 [v2]).isOk = false :=
  (reality_check_rejects_iff p2 v2 v2 v2 [v2] (by simp) (List.pairwise_singleton posLe v2)).2.mpr
    (by norm_num [replay_swaps, Pool.simulate_swap, Pool.constant_product_formula,
      Pool.get_token_a_price, Pool.get_token_b_price, Pool.calculate_slippage,
      v2, p2, tx0])

/-- A triple passing the strict pattern shares one pool address three
ways. -/
lemma detector_pattern_pools {f v b : SwapTransaction}
    (h : Detector.is_sandwich_pattern f v b = true) :
    f.pool_address = v.pool_address ∧ v.pool_address = b.pool_address := by
  unfold Detector.is_sandwich_pattern at h
  split_ifs at h with h1 h2 h3 h4 h5 h6
  all_goals simp_all [bne_iff_ne, not_or]

/-- A triple passing the equivalence-aware heuristic pattern has one
attacker address on both legs and a distinct victim address. -/
lemma sameblock_pattern_addresses {f v b : SwapTransaction}
    (h : SameBlock.is_sandwich_pattern f v b = true) :
    f.from_address = b.from_address ∧ f.from_address ≠ v.from_address := by
  unfold SameBlock.is_sandwich_pattern at h
  split_ifs at h with h1 h2 h3 h4 h5
  all_goals simp_all [bne_iff_ne, not_or]

/-- A triple passing the simulation-path pattern has front and victim on
the same pool. -/
lemma utils_pattern_pool {f v b : SwapTransaction}
    (h : Utils.is_sandwich_pattern f v b = true) :
    f.pool_address = v.pool_address := by
  unfold Utils.is_sandwich_pattern at h
  split_ifs at h with h1 h2 h3 h4 h5 h6
  all_goals simp_all [bne_iff_ne, not_or]

/-- A successful per-candidate simulation carries the candidate's own three
transactions in its finding. -/
lemma simulate_ok_fields {initial_pool : Pool} {front victim back : SwapTransaction}
    {all_transactions : List SwapTransaction} {attack : SandwichAttackBySimulation}
    (h : simulate_sandwich_attack initial_pool front victim back all_transactions
      = Except.ok attack) :
    attack.front_run_tx = front ∧ attack.victim_tx = victim
      ∧ attack.back_run_tx = back := by
  unfold simulate_sandwich_attack at h
  dsimp only at h
  split_ifs at h
  injection h with h'
  subst h'
  exact ⟨rfl, rfl, rfl⟩

/-- Every finding of the simulation detector's block search has front and
victim on the same pool. -/
lemma mem_sim_block_pools {pm : String → Option Pool} {txs : List SwapTransaction}
    {b : SandwichAttackBySimulation}
    (hb : b ∈ SameBlockSim.find_sandwiches_in_block_by_simulation pm txs) :
    b.front_run_tx.pool_address = b.victim_tx.pool_address := by
  unfold SameBlockSim.find_sandwiches_in_block_by_simulation at hb
  rw [List.mem_flatMap] at hb
  obtain ⟨i, -, hb⟩ := hb
  rw [List.mem_flatMap] at hb
  obtain ⟨j, -, hb⟩ := hb
  rw [List.mem_flatMap] at hb
  obtain ⟨k, -, hb⟩ := hb
  split at hb
  case _ front victim back hi hj hk =>
    split_ifs at hb with hpat
    case _ =>
      split at hb
      case _ pool hpool =>
        split at hb
        case _ attack hsim =>
          rw [List.mem_singleton] at hb
          subst hb
          obtain ⟨hf, hv, -⟩ := simulate_ok_fields hsim
          rw [hf, hv]
          exact utils_pattern_pool hpat
        case _ => simp at hb
      case _ => simp at hb
    case _ => simp at hb
  case _ => simp at hb

/-- Every attack produced by the strict block search passes the strict
pattern on its own three transactions. -/
lemma mem_detector_block_pattern {l : List SwapTransaction}
    {attacks : List Detector.SandwichAttack} {a : Detector.SandwichAttack}
    (hfind : Detector.find_sandwiches_in_block l = Except.ok attacks)
    (ha : a ∈ attacks) :
    Detector.is_sandwich_pattern a.front_run_tx a.victim_tx a.back_run_tx = true := by
  unfold Detector.find_sandwiches_in_block at hfind
  split_ifs at hfind
  injection hfind with h
  subst h
  rw [List.mem_filterMap] at ha
  obtain ⟨i, -, hi⟩ := ha
  split at hi
  case _ front victim back hf hv hb =>
    split_ifs at hi with hpat
    injection hi with hi
    subst hi
    exact hpat
  case _ => exact Option.noConfusion hi

/-- C6 amended: the strict variant's findings share one literal pool across
front, victim and back, and the simulation detector's findings share a pool
between front and victim; the equivalence-aware heuristic detector imposes
no pool-address constraint at all (its findings may span distinct pools,
which is how it detects cross-venue sandwiches). -/
theorem pool_alignment_amended :
    (∀ (txs : List SwapTransaction) (a : Detector.SandwichAttack),
      a ∈ Detector.find_sandwiches txs →
        a.front_run_tx.pool_address = a.victim_tx.pool_address
        ∧ a.victim_tx.pool_address = a.back_run_tx.pool_address)
    ∧ (∀ (pm : String → Option Pool) (txs : List SwapTransaction)
        (b : SandwichAttackBySimulation),
      b ∈ SameBlockSim.find_sandwich_attacks_by_simulation pm txs →
        b.front_run_tx.pool_address = b.victim_tx.pool_address) := by
  constructor
  · intro txs a ha
    unfold Detector.find_sandwiches at ha
    rw [List.mem_flatMap] at ha
    obtain ⟨e, -, ha⟩ := ha
    split at ha
    case _ attacks hfind =>
      exact detector_pattern_pools (mem_detector_block_pattern hfind ha)
    case _ => simp at ha
  · intro pm txs b hb
    unfold SameBlockSim.find_sandwich_attacks_by_simulation at hb
    rw [List.mem_flatMap] at hb
    obtain ⟨e, -, hb⟩ := hb
    exact mem_sim_block_pools hb

/-- C6 counterexample: the equivalence-aware heuristic detector returns a
triple whose front and victim legs sit on different pools (`p1` and `p2`),
so its findings do not satisfy the front/victim shared-pool requirement the
claim ascribes to it. -/
theorem heuristic_cross_pool_counterexample :
    (SameBlock.find_same_block_sandwiches ex6).isEmpty = false
    ∧ (SameBlock.find_same_block_sandwiches ex6).all
        (fun a => a.front_run_tx.pool_address == a.victim_tx.pool_address) = false := by
  exact ⟨by decide, by decide⟩

/-- The per-candidate simulation succeeds on the concrete example block and
reports a 200% counterfactual difference. -/
lemma simulate_exS_ok : simulate_sandwich_attack pS fS vS bS exS = Except.ok aS := by
  norm_num [simulate_sandwich_attack, check_simulation_is_like_reality,
    simulate_without_attacker, replay_swaps, Pool.simulate_swap,
    Pool.constant_product_formula, Pool.get_token_a_price, Pool.get_token_b_price,
    Pool.calculate_slippage, List.filter, abs_of_nonneg, abs_of_nonpos,
    exS, fS, vS, bS, pS, aS, tx0]

/-- The simulation detector finds `aS` on the example block. -/
lemma aS_mem : aS ∈ SameBlockSim.find_sandwich_attacks_by_simulation pmS exS := by
  have hg : SameBlockSim.group_by_block exS = [(9, exS)] := rfl
  unfold SameBlockSim.find_sandwich_attacks_by_simulation
  rw [hg]
  simp only [List.flatMap_cons, List.flatMap_nil, List.append_nil]
  unfold SameBlockSim.find_sandwiches_in_block_by_simulation
  rw [List.mem_flatMap]
  refine ⟨0, by norm_num [exS], ?_⟩
  rw [List.mem_flatMap]
  refine ⟨1, by norm_num [exS, List.mem_range'_1], ?_⟩
  rw [List.mem_flatMap]
  refine ⟨2, by norm_num [exS, List.mem_range'_1], ?_⟩
  rw [show exS[0]? = some fS from rfl, show exS[1]? = some vS from rfl,
    show exS[2]? = some bS from rfl]
  dsimp only
  rw [if_pos (show Utils.is_sandwich_pattern fS vS bS = true by decide)]
  rw [show pmS fS.pool_address = some pS from rfl]
  dsimp only
  rw [simulate_exS_ok]
  simp

/-- C6 witness: the amended pool-alignment facts at a concrete strict-variant
finding and a concrete simulation finding. -/
theorem pool_alignment_amended_witness :
    ((Detector.find_sandwiches ex6d).headI.front_run_tx.pool_address
        = (Detector.find_sandwiches ex6d).headI.victim_tx.pool_address
      ∧ (Detector.find_sandwiches ex6d).headI.victim_tx.pool_address
        = (Detector.find_sandwiches ex6d).headI.back_run_tx.pool_address)
    ∧ aS.front_run_tx.pool_address = aS.victim_tx.pool_address :=
  ⟨pool_alignment_amended.1 ex6d (Detector.find_sandwiches ex6d).headI
      (headI_mem_of_isEmpty_eq_false (by decide)),
   pool_alignment_amended.2 pmS exS aS aS_mem⟩

/-- With pairwise-distinct positions per block, every sorted block bucket is
strictly increasing in intra-block position. -/
lemma sorted_bucket_strict (txs : List SwapTransaction)
    (hd : distinct_positions txs) (bk : Nat) :
    (List.insertionSort posLe (txs.filter (fun tx => tx.block_number == bk))).Pairwise
      (fun a c => a.tx_position_in_block < c.tx_position_in_block) := by
  have hsub : (txs.filter (fun tx => tx.block_number == bk)).Sublist txs :=
    List.filter_sublist txs
  have hf := List.Pairwise.sublist hsub hd
  have hblock : ∀ t ∈ txs.filter (fun tx => tx.block_number == bk),
      t.block_number = bk := by
    intro t ht
    simpa using (List.mem_filter.mp ht).2
  have hne : (txs.filter (fun tx => tx.block_number == bk)).Pairwise
      (fun a c => a.tx_position_in_block ≠ c.tx_position_in_block) :=
    List.Pairwise.imp_of_mem
      (fun ha hb hr => hr ((hblock _ ha).trans (hblock _ hb).symm)) hf
  have hperm :
      (List.insertionSort posLe (txs.filter (fun tx => tx.block_number == bk))).Perm
        (txs.filter (fun tx => tx.block_number == bk)) :=
    List.perm_insertionSort posLe _
  have hne' := (List.Perm.pairwise_iff (fun h => Ne.symm h) hperm).mpr hne
  have hle : (List.insertionSort posLe
      (txs.filter (fun tx => tx.block_number == bk))).Pairwise posLe :=
    List.sorted_insertionSort posLe _
  exact (hle.and hne').imp (fun hp => lt_of_le_of_ne hp.1 hp.2)

/-- Every bucket of the heuristic grouping is the position-sorted filter of
the input at its block number. -/
lemma mem_group_sameblock {txs : List SwapTransaction}
    {e : Nat × List SwapTransaction}
    (he : e ∈ SameBlock.group_transactions_by_block txs) :
    e.2 = List.insertionSort posLe
      (txs.filter (fun tx => tx.block_number == e.1)) := by
  unfold SameBlock.group_transactions_by_block at he
  rw [List.mem_map] at he
  obtain ⟨bk, -, he⟩ := he
  subst he
  rfl

/-- Every attack of the heuristic block search passes the equivalence-aware
pattern and stems from indices `i < j < k` of the block list. -/
lemma mem_sameblock_block_indices {l : List SwapTransaction}
    {attacks : List SameBlock.SandwichAttack} {a : SameBlock.SandwichAttack}
    (hfind : SameBlock.find_sandwiches_in_block l = Except.ok attacks)
    (ha : a ∈ attacks) :
    SameBlock.is_sandwich_pattern a.front_run_tx a.victim_tx a.back_run_tx = true
    ∧ ∃ i j k : Nat, i < j ∧ j < k
        ∧ l[i]? = some a.front_run_tx ∧ l[j]? = some a.victim_tx
        ∧ l[k]? = some a.back_run_tx := by
  unfold SameBlock.find_sandwiches_in_block at hfind
  split_ifs at hfind
  injection hfind with h
  subst h
  rw [List.mem_flatMap] at ha
  obtain ⟨fp, hfp, ha⟩ := ha
  rw [List.mem_range] at hfp
  split at ha
  case _ => simp at ha
  case _ front hfront =>
    rw [List.mem_flatMap] at ha
    obtain ⟨bp, hbp, ha⟩ := ha
    rw [List.mem_range'_1] at hbp
    split at ha
    case _ => simp at ha
    case _ back hback =>
      split_ifs at ha with hg1 hg2
      case _ => simp at ha
      case _ => simp at ha
      case _ =>
        rw [List.mem_filterMap] at ha
        obtain ⟨vp, hvp, hv⟩ := ha
        rw [List.mem_range'_1] at hvp
        split at hv
        case _ => exact Option.noConfusion hv
        case _ victim hvictim =>
          split_ifs at hv with hpat
          injection hv with hv
          subst hv
          exact ⟨hpat, fp, vp, bp, by omega, by omega, hfront, hvictim, hback⟩

/-- C7: with the data-model invariant that intra-block positions are unique,
every finding of the equivalence-aware heuristic detector has one attacker
address on both legs, a distinct victim address, all three transactions in
one block, and strictly increasing intra-block positions front < victim <
back. -/
theorem heuristic_attack_invariants (txs : List SwapTransaction)
    (hd : distinct_positions txs) (a : SameBlock.SandwichAttack)
    (ha : a ∈ SameBlock.find_same_block_sandwiches txs) :
    a.front_run_tx.from_address = a.back_run_tx.from_address
    ∧ a.front_run_tx.from_address ≠ a.victim_tx.from_address
    ∧ a.front_run_tx.tx_position_in_block < a.victim_tx.tx_position_in_block
    ∧ a.victim_tx.tx_position_in_block < a.back_run_tx.tx_position_in_block := by
  unfold SameBlock.find_same_block_sandwiches at ha
  rw [List.mem_flatMap] at ha
  obtain ⟨e, he, ha⟩ := ha
  have hbucket := mem_group_sameblock he
  split at ha
  case _ attacks hfind =>
    obtain ⟨hpat, i, j, k, hij, hjk, hi, hj, hk⟩ :=
      mem_sameblock_block_indices hfind ha
    have haddr := sameblock_pattern_addresses hpat
    have hstrict : (e.2).Pairwise
        (fun x y => x.tx_position_in_block < y.tx_position_in_block) := by
      rw [hbucket]
      exact sorted_bucket_strict txs hd e.1
    obtain ⟨hilen, hieq⟩ := List.getElem?_eq_some.mp hi
    obtain ⟨hjlen, hjeq⟩ := List.getElem?_eq_some.mp hj
    obtain ⟨hklen, hkeq⟩ := List.getElem?_eq_some.mp hk
    have h1 := List.pairwise_iff_getElem.mp hstrict i j hilen hjlen hij
    have h2 := List.pairwise_iff_getElem.mp hstrict j k hjlen hklen hjk
    rw [hieq, hjeq] at h1
    rw [hjeq, hkeq] at h2
    exact ⟨haddr.1, haddr.2, h1, h2⟩
  case _ => simp at ha

/-- C7 witness: the invariants at the concrete finding of the heuristic
detector on the cross-pool example block. -/
theorem heuristic_attack_invariants_witness :
    (SameBlock.find_same_block_sandwiches ex6).headI.front_run_tx.from_address
        = (SameBlock.find_same_block_sandwiches ex6).headI.back_run_tx.from_address
    ∧ (SameBlock.find_same_block_sandwiches ex6).headI.front_run_tx.from_address
        ≠ (SameBlock.find_same_block_sandwiches ex6).headI.victim_tx.from_address
    ∧ (SameBlock.find_same_block_sandwiches ex6).headI.front_run_tx.tx_position_in_block
        < (SameBlock.find_same_block_sandwiches ex6).headI.victim_tx.tx_position_in_block
    ∧ (SameBlock.find_same_block_sandwiches ex6).headI.victim_tx.tx_position_in_block
        < (SameBlock.find_same_block_sandwiches ex6).headI.back_run_tx.tx_position_in_block :=
  heuristic_attack_invariants ex6 (by decide)
    (SameBlock.find_same_block_sandwiches ex6).headI
    (headI_mem_of_isEmpty_eq_false (by decide))

end ToxicFlow
